import Mathlib

/-
Verification of the controller-binding layer of django-ninja-extra
(src/ninja_extra/operation.py, src/ninja_extra/controllers/base.py,
src/ninja_extra/schemas/response.py) against its natural-language
specification.  The Python code is shallowly embedded: each relevant
function becomes an executable Lean definition over explicit data, and
the spec's sentences become theorems about those definitions.
-/

namespace NinjaExtra

/-- An HTTP response as this layer observes it: a status code and a
JSON-object body modelled as a list of key/value pairs (the bodies this
layer itself builds are flat string objects such as the unauthorized
body with a single "detail" field). -/
structure Response where
  status : Nat
  body : List (String × String)
deriving DecidableEq

/-- The observable outcome of one auth callback applied to a request
(`callback(request)` in `AsyncOperation._run_authentication`,
src/ninja_extra/operation.py lines 341-355): a truthy value (modelled
as a Nat token), a falsy value, or a raised exception (modelled as a
Nat token passed to `api.on_exception`). -/
inductive CallbackResult where
  | truthy (v : Nat)
  | falsy
  | raises (e : Nat)
deriving DecidableEq

/-- Modelled from the spec: `api.create_response(request,
filter_dict_detail_unauthorized, status=401)` of the external routing
framework, which serializes the given object with the given status.
The body written at src/ninja_extra/operation.py line 355 is the
single-field object with key "detail" and value "Unauthorized". -/
def unauthorizedResponse : Response :=
  ⟨401, [("detail", "Unauthorized")]⟩

/-- `AsyncOperation._run_authentication` (src/ninja_extra/operation.py
lines 341-355).  Inputs: the `api.on_exception` translator, the
declared auth-callback chain with each callback's outcome, and the
request's current `auth` attribute.  Output: the request's `auth`
attribute after the run, the error response if authentication failed
(`none` means success), and how many callbacks were evaluated.
The loop evaluates callbacks in declaration order; a raising callback
yields `on_exception`'s response; the first truthy result is stored on
the request and the function returns no error; if the chain is
exhausted the 401 unauthorized response is returned. -/
def runAuthentication (onException : Nat → Response) :
    List CallbackResult → Option Nat → Option Nat × Option Response × Nat
  | [], auth0 => (auth0, some unauthorizedResponse, 0)
  | .raises e :: _, auth0 => (auth0, some (onException e), 1)
  | .truthy v :: _, _ => (some v, none, 1)
  | .falsy :: rest, auth0 =>
    let r := runAuthentication onException rest auth0
    (r.1, r.2.1, r.2.2 + 1)

/-- `AsyncOperation._run_checks` (src/ninja_extra/operation.py lines
325-339): when the operation has auth callbacks, run authentication
first and return its error if any; then the CSRF check.  `csrfCheck`
is `none` when the api has CSRF disabled or the check passes, and
`some r` when `check_csrf` (external) fails with response `r`.
Returns the request's auth attribute and the error response if any. -/
def runChecks (onException : Nat → Response) (authCallbacks : List CallbackResult)
    (csrfCheck : Option Response) (auth0 : Option Nat) : Option Nat × Option Response :=
  if authCallbacks.isEmpty then (auth0, csrfCheck)
  else
    let r := runAuthentication onException authCallbacks auth0
    match r.2.1 with
    | some err => (r.1, some err)
    | none => (r.1, csrfCheck)

/-- Outcome of one lifecycle step of `Operation.run`: the step's value,
or a raised exception (a Nat token handed to `api.on_exception`). -/
inductive Step (α : Type) where
  | ok (a : α)
  | exc (e : Nat)
deriving DecidableEq

/-- The per-request environment `Operation.run` executes in
(src/ninja_extra/operation.py lines 176-199 together with `_prep_run`,
lines 143-174): the outcome of `_run_checks`, of
`api.create_temporal_response`, of `get_execution_context`, of
`_get_values`, of the handler call, of `_result_to_response`, and the
`api.on_exception` translator.  `Ctx` is the type of the built
RouteContext. -/
structure RunEnv (Ctx : Type) where
  checks : Option Response
  createTemporalResponse : Step Response
  buildContext : Step Ctx
  getValues : Step (List (String × String))
  callHandler : Step Nat
  convertResult : Step Response
  onException : Nat → Response

/-- The observable trace of one `Operation.run` call: the returned
response, whether `api.create_temporal_response` completed, whether a
RouteContext was built, every `route_context_started` broadcast (with
its payload), every `route_context_finished` broadcast (with its
payload: the code always sends `route_context=None`), and the number
of info-level (success) and error-level log lines emitted. -/
structure RunTrace (Ctx : Type) where
  response : Response
  temporalCreated : Bool
  contextBuilt : Bool
  startedSignals : List Ctx
  finishedSignals : List (Option Ctx)
  infoLogs : Nat
  errorLogs : Nat
deriving DecidableEq

/-- `Operation.run` (src/ninja_extra/operation.py lines 176-199) with
`_prep_run` (lines 143-174) inlined; `AsyncOperation.run` (lines
388-403) has the same shape with `await` at each step.  `_run_checks`
failing returns its response before anything else.  Exceptions in the
`try` body are translated by `api.on_exception`.  `_prep_run` builds
the context inside its own `try`, broadcasts `route_context_started`
after a successful build, logs success at info level when its body
finishes, logs at error level when an exception passes through, and
broadcasts `route_context_finished` with payload `None` in its
`finally` block - which runs only when `_prep_run` was entered at
all. -/
def Operation.run {Ctx : Type} (env : RunEnv Ctx) : RunTrace Ctx :=
  match env.checks with
  | some err => ⟨err, false, false, [], [], 0, 0⟩
  | none =>
    match env.createTemporalResponse with
    | .exc e => ⟨env.onException e, false, false, [], [], 0, 0⟩
    | .ok _temporal =>
      match env.buildContext with
      | .exc e => ⟨env.onException e, true, false, [], [none], 0, 1⟩
      | .ok ctx =>
        match env.getValues with
        | .exc e => ⟨env.onException e, true, true, [ctx], [none], 0, 1⟩
        | .ok _values =>
          match env.callHandler with
          | .exc e => ⟨env.onException e, true, true, [ctx], [none], 0, 1⟩
          | .ok _result =>
            match env.convertResult with
            | .exc e => ⟨env.onException e, true, true, [ctx], [none], 0, 1⟩
            | .ok resp => ⟨resp, true, true, [ctx], [none], 1, 0⟩

/-- A permission rule as `ControllerBase` consumes it: the outcome of
`has_permission(request, controller)`, of
`has_object_permission(request, controller, obj)` for each object
(objects are modelled as Nat ids), and the optional `message`
attribute read by `ControllerBase.permission_denied`
(src/ninja_extra/controllers/base.py lines 319-322). -/
structure Permission where
  hasPermission : Bool
  hasObjectPermission : Nat → Bool
  message : Option String

/-- The slice of a RouteContext that the permission helpers read:
whether `self.context.request` is set (truthy), and the resolved
`permission_classes` list.  In the code a permission class is
instantiated with no arguments, so a class is modelled by the
instance it produces. -/
structure RouteContext where
  requestPresent : Bool
  permissionClasses : List Permission

/-- Outcome of a permission check: success, or the PermissionDenied
exception raised by `ControllerBase.permission_denied` carrying the
denying rule's `message` attribute (or `none` when absent). -/
inductive PermCheck where
  | ok
  | denied (msg : Option String)
deriving DecidableEq

/-- The loop of `ControllerBase.check_permissions`
(src/ninja_extra/controllers/base.py lines 356-369) over the lazy
generator `_get_permissions` (lines 345-354).  Returns the outcome and
how many permission rules were instantiated: the generator
instantiates one rule per iteration, so a denial at rule i leaves
rules after i never instantiated nor evaluated.  A rule denies only
when the context's request is present (`self.context.request`
truthy). -/
def checkPermissionsList (requestPresent : Bool) : List Permission → PermCheck × Nat
  | [] => (.ok, 0)
  | p :: rest =>
    if requestPresent && !p.hasPermission then (.denied p.message, 1)
    else
      let r := checkPermissionsList requestPresent rest
      (r.1, r.2 + 1)

/-- `ControllerBase.check_permissions` (src/ninja_extra/controllers/base.py
lines 356-369): with no context, `_get_permissions` yields nothing and
the check passes with no rule instantiated. -/
def check_permissions (ctx : Option RouteContext) : PermCheck × Nat :=
  match ctx with
  | none => (.ok, 0)
  | some c => checkPermissionsList c.requestPresent c.permissionClasses

/-- The loop of `ControllerBase.check_object_permissions`
(src/ninja_extra/controllers/base.py lines 371-384), identical to
`check_permissions` but evaluating `has_object_permission` with the
candidate object. -/
def checkObjectPermissionsList (requestPresent : Bool) (obj : Nat) :
    List Permission → PermCheck × Nat
  | [] => (.ok, 0)
  | p :: rest =>
    if requestPresent && !p.hasObjectPermission obj then (.denied p.message, 1)
    else
      let r := checkObjectPermissionsList requestPresent obj rest
      (r.1, r.2 + 1)

/-- `ControllerBase.check_object_permissions`
(src/ninja_extra/controllers/base.py lines 371-384). -/
def check_object_permissions (ctx : Option RouteContext) (obj : Nat) : PermCheck × Nat :=
  match ctx with
  | none => (.ok, 0)
  | some c => checkObjectPermissionsList c.requestPresent obj c.permissionClasses

/-- The API exceptions this layer raises: NotFound (the default lookup
failure), PermissionDenied with the denying rule's message, or a
caller-configured exception type (a Nat token), mirroring the
customizable `exception` argument of `get_object_or_exception`. -/
inductive APIError where
  | notFound (msg : Option String)
  | permissionDenied (msg : Option String)
  | custom (code : Nat)
deriving DecidableEq

/-- Modelled from the spec: `ninja_extra.shortcuts.get_object_or_exception`
(not under src/), which looks a single domain object up by query
parameters and raises the configured 404-equivalent API exception when
the lookup fails.  `queryResult` is the direct query's result; objects
are modelled as Nat ids. -/
def shortcutGetObjectOrException (queryResult : Option Nat) (excFor : APIError) :
    Option Nat × Option APIError :=
  match queryResult with
  | none => (none, some excFor)
  | some o => (some o, none)

/-- Modelled from the spec: `ninja_extra.shortcuts.get_object_or_none`
(not under src/), which returns the found object or an empty-result
marker. -/
def shortcutGetObjectOrNone (queryResult : Option Nat) : Option Nat :=
  queryResult

/-- Result of `ControllerBase.get_object_or_exception`: the returned
object or the raised exception. -/
inductive ObjResult where
  | obj (o : Nat)
  | err (e : APIError)
deriving DecidableEq

/-- Result of `ControllerBase.get_object_or_none`: the returned object,
the returned empty-result marker, or the raised exception. -/
inductive ObjOptionResult where
  | obj (o : Nat)
  | noneFound
  | err (e : APIError)
deriving DecidableEq

/-- `ControllerBase.get_object_or_exception`
(src/ninja_extra/controllers/base.py lines 324-335): run the lookup
shortcut (raising `excFor` on failure), then
`check_object_permissions` on the found object, then return it. -/
def ControllerBase.get_object_or_exception (ctx : Option RouteContext)
    (queryResult : Option Nat) (excFor : APIError) : ObjResult :=
  match shortcutGetObjectOrException queryResult excFor with
  | (_, some e) => .err e
  | (some o, none) =>
    match check_object_permissions ctx o with
    | (.denied m, _) => .err (.permissionDenied m)
    | (.ok, _) => .obj o
  | (none, none) => .err excFor

/-- `ControllerBase.get_object_or_none`
(src/ninja_extra/controllers/base.py lines 337-343): run the lookup
shortcut; when an object was found, `check_object_permissions` on it
before returning it; otherwise return the empty marker. -/
def ControllerBase.get_object_or_none (ctx : Option RouteContext)
    (queryResult : Option Nat) : ObjOptionResult :=
  match shortcutGetObjectOrNone queryResult with
  | none => .noneFound
  | some o =>
    match check_object_permissions ctx o with
    | (.denied m, _) => .err (.permissionDenied m)
    | (.ok, _) => .obj o

/-- What `Operation.get_execution_context` reads off a view function
bound to a route function (src/ninja_extra/operation.py lines
117-141): the route's own `permissions` attribute, and the owning
controller's `permission_classes`. -/
structure RouteFunctionModel where
  routePermissions : Option (List Permission)
  controllerPermissionClasses : List Permission

/-- `Operation.get_execution_context` (src/ninja_extra/operation.py
lines 117-141): `permission_classes` starts `[]`; when the view
function has a route function, it becomes
`route_function.route.permissions or _api_controller.permission_classes`
(Python `or`: the route's list when it is set and non-empty, the
controller's list otherwise); the resulting RouteContext carries that
list. -/
def get_execution_context (requestPresent : Bool)
    (routeFn : Option RouteFunctionModel) : RouteContext :=
  match routeFn with
  | none => ⟨requestPresent, []⟩
  | some rf =>
    match rf.routePermissions with
    | none => ⟨requestPresent, rf.controllerPermissionClasses⟩
    | some [] => ⟨requestPresent, rf.controllerPermissionClasses⟩
    | some (p :: ps) => ⟨requestPresent, p :: ps⟩

/-- `RouteParameter` (src/ninja_extra/schemas/response.py lines
107-122), with `auth` and `response` reduced to opaque tokens since
only their presence travels through the claims. -/
structure RouteParameter where
  path : String
  methods : List String
  auth : Option Nat
  response : Option Nat
  operation_id : Option String
  summary : Option String
  description : Option String
  tags : Option (List String)
  deprecated : Option Bool
  by_alias : Bool
  exclude_unset : Bool
  exclude_defaults : Bool
  exclude_none : Bool
  url_name : Option String
  include_in_schema : Bool
deriving DecidableEq

/-- The assignment `APIController.add_operation_from_route_function`
performs on the route's parameters (src/ninja_extra/controllers/base.py
lines 213-218):
`route_params.operation_id = f"{str(uuid.uuid4())[:8]}_controller_{view_func.__name__}"`,
with `uuidToken` standing for the first 8 characters of the fresh
uuid4.  The assignment is unconditional. -/
def add_operation_from_route_function (uuidToken : String) (viewFuncName : String)
    (rp : RouteParameter) : RouteParameter :=
  ⟨rp.path, rp.methods, rp.auth, rp.response,
   some (uuidToken ++ "_controller_" ++ viewFuncName),
   rp.summary, rp.description, rp.tags, rp.deprecated, rp.by_alias,
   rp.exclude_unset, rp.exclude_defaults, rp.exclude_none,
   rp.url_name, rp.include_in_schema⟩

/-- Python `str.lower()` on the class names this layer sees (ASCII
identifiers): lower-case every character. -/
def toLowerString (s : String) : String :=
  String.mk (s.data.map Char.toLower)

/-- Whether the first list starts with the second (pattern) list. -/
def leadsWith : List Char → List Char → Bool
  | [], _ => true
  | _ :: _, [] => false
  | p :: ps, c :: cs => p == c && leadsWith ps cs

/-- Python `str.replace(pat, rep)` with non-empty `pat`: scan left to
right, replacing non-overlapping occurrences.  Fuel-driven recursion;
`fuel = s.length` suffices because every step consumes at least one
character of `s`. -/
def pyReplaceFuel (pat rep : List Char) : Nat → List Char → List Char
  | 0, s => s
  | Nat.succ fuel, s =>
    match s with
    | [] => []
    | c :: cs =>
      if leadsWith pat (c :: cs) then
        rep ++ pyReplaceFuel pat rep fuel (List.drop pat.length (c :: cs))
      else
        c :: pyReplaceFuel pat rep fuel cs

/-- Python `s.replace(pat, rep)` for non-empty `pat`. -/
def pyReplace (s pat rep : String) : String :=
  String.mk (pyReplaceFuel pat.data rep.data s.data.length s.data)

/-- The default-tag computation of `APIController.__call__`
(src/ninja_extra/controllers/base.py line 164):
`str(cls.__name__).lower().replace("controller", "")` - note
`str.replace` removes every occurrence, not only a trailing one. -/
def defaultTag (clsName : String) : String :=
  pyReplace (toLowerString clsName) "controller" ""

/-- Whether the list ends with the (pattern) list. -/
def trailsWith (pat l : List Char) : Bool :=
  leadsWith pat.reverse l.reverse

/-- The claim's reading of the default tag, stated for comparison with
`defaultTag`: the class name lower-cased with only a trailing
"controller" suffix stripped, occurrences elsewhere preserved. -/
def specTrailingStrippedTag (clsName : String) : String :=
  let l := (toLowerString clsName).data
  if trailsWith "controller".data l then String.mk (l.take (l.length - 10))
  else String.mk l

/-- The tag logic of `APIController.__call__`
(src/ninja_extra/controllers/base.py lines 163-165) over the tags
stored by the `tags` setter (lines 148-153): `if not self.tags:` - a
missing or empty tag list (both falsy) is replaced by the single
default tag; a non-empty supplied list is left as stored. -/
def resolveControllerTags (suppliedTags : Option (List String)) (clsName : String) :
    Option (List String) :=
  match suppliedTags with
  | none => some [defaultTag clsName]
  | some [] => some [defaultTag clsName]
  | some (t :: ts) => some (t :: ts)

/-- The per-character brace replacement of `APIController.urls_paths`
(src/ninja_extra/controllers/base.py line 196):
`path.replace("{", "<").replace("}", ">")`. -/
def replaceBraceChar (c : Char) : Char :=
  if c == '\x7b' then '<' else if c == '\x7d' then '>' else c

/-- `"/".join([i for i in (mountPrefix, path) if i])`
(src/ninja_extra/controllers/base.py line 197): empty components are
dropped, the rest joined with a single slash. -/
def joinNonEmptyWithSlash (a b : List Char) : List Char :=
  if a.isEmpty then b else if b.isEmpty then a else a ++ '/' :: b

/-- Modelled from the spec: the external routing framework's
`normalize_path` consumed at src/ninja_extra/controllers/base.py line
199, documented as "single-slash normalization (collapsing accidental
double slashes)": every run of two or more slashes collapses to
one. -/
def collapseDoubleSlashes : List Char → List Char
  | [] => []
  | c :: rest =>
    match collapseDoubleSlashes rest with
    | [] => [c]
    | d :: ds => if c == '/' && d == '/' then d :: ds else c :: d :: ds

/-- `route.lstrip("/")` (src/ninja_extra/controllers/base.py line
200): drop every leading slash. -/
def stripLeadingSlashes (l : List Char) : List Char :=
  l.dropWhile (fun c => c == '/')

/-- The route string `APIController.urls_paths` emits for the mount
prefix and one grouped path (src/ninja_extra/controllers/base.py lines
196-200): braces of the path replaced by angle brackets, empty
components dropped, the join slash-collapsed, the leading slash
stripped. -/
def mountRoute (mountPfx routePath : List Char) : List Char :=
  stripLeadingSlashes (collapseDoubleSlashes
    (joinNonEmptyWithSlash mountPfx (routePath.map replaceBraceChar)))

/-- The slice of an Operation that `urls_paths` reads: its configured
`url_name` (src/ninja_extra/operation.py line 57). -/
structure OperationModel where
  url_name : Option String
deriving DecidableEq

/-- A PathView as `urls_paths` consumes it: the Operations grouped
under one exact path. -/
structure PathViewModel where
  operations : List OperationModel
deriving DecidableEq

/-- `APIController.urls_paths` (src/ninja_extra/controllers/base.py
lines 194-205): for every (path, PathView) entry of the controller's
path-operations mapping and every Operation grouped there, emit one
URL entry (route, name) with the normalized route and that Operation's
url name. -/
def urls_paths (mountPfx : String) (pathOperations : List (String × PathViewModel)) :
    List (String × Option String) :=
  pathOperations.flatMap (fun po =>
    po.2.operations.map (fun op =>
      (String.mk (mountRoute mountPfx.data po.1.data), op.url_name)))

/-- Absence of a doubled slash: no two adjacent characters are both
slashes. -/
def noDoubleSlash : List Char → Bool
  | [] => true
  | [_] => true
  | c1 :: c2 :: rest => !(c1 == '/' && c2 == '/') && noDoubleSlash (c2 :: rest)

/-- An auth callback as `Operation._set_auth` inspects it: whether its
callable (`callback` itself for plain functions, `callback.__call__`
otherwise) is asynchronous (`is_async(_call_back)`). -/
structure AuthCallbackModel where
  isAsyncCallable : Bool
deriving DecidableEq

/-- The guard loop of `Operation._set_auth`
(src/ninja_extra/operation.py lines 61-79): `true` means construction
completes, `false` means the constructor raised on the first
asynchronous callback applied to a synchronous view function. -/
def setAuthLoop (viewIsCoroutine : Bool) : List AuthCallbackModel → Bool
  | [] => true
  | cb :: rest =>
    if cb.isAsyncCallable && !viewIsCoroutine then false
    else setAuthLoop viewIsCoroutine rest

/-- `Operation._set_auth` (src/ninja_extra/operation.py lines 61-79):
with `auth` None or NOT_SET (both `none` here) nothing is checked;
otherwise the normalized callback list (a lone callback is wrapped
into a singleton list by line 65) is scanned and the constructor
raises on an asynchronous callback when the view function is
synchronous. -/
def setAuth (viewIsCoroutine : Bool) (auth : Option (List AuthCallbackModel)) : Bool :=
  match auth with
  | none => true
  | some cbs => setAuthLoop viewIsCoroutine cbs

theorem checkPermissionsList_allows (perms : List Permission)
    (h : ∀ q ∈ perms, q.hasPermission = true) :
    checkPermissionsList true perms = (.ok, perms.length) := by
  induction perms with
  | nil => rfl
  | cons p rest ih =>
    have hp := h p (by simp)
    simp only [checkPermissionsList, hp, Bool.not_true, Bool.and_false,
      Bool.false_eq_true, if_false, ih (fun q hq => h q (by simp [hq])),
      List.length_cons]

theorem checkPermissionsList_denies (pre rest : List Permission) (p : Permission)
    (h : ∀ q ∈ pre, q.hasPermission = true) (hp : p.hasPermission = false) :
    checkPermissionsList true (pre ++ p :: rest) = (.denied p.message, pre.length + 1) := by
  induction pre with
  | nil => simp [checkPermissionsList, hp]
  | cons q pre' ih =>
    have hq := h q (by simp)
    simp only [List.cons_append, checkPermissionsList, hq, Bool.not_true,
      Bool.and_false, Bool.false_eq_true, if_false, List.append_eq,
      ih (fun q' hq' => h q' (by simp [hq'])), List.length_cons]

theorem checkObjectPermissionsList_allows (o : Nat) (perms : List Permission)
    (h : ∀ q ∈ perms, q.hasObjectPermission o = true) :
    checkObjectPermissionsList true o perms = (.ok, perms.length) := by
  induction perms with
  | nil => rfl
  | cons p rest ih =>
    have hp := h p (by simp)
    simp only [checkObjectPermissionsList, hp, Bool.not_true, Bool.and_false,
      Bool.false_eq_true, if_false, ih (fun q hq => h q (by simp [hq])),
      List.length_cons]

theorem checkObjectPermissionsList_denies (o : Nat) (pre rest : List Permission)
    (p : Permission) (h : ∀ q ∈ pre, q.hasObjectPermission o = true)
    (hp : p.hasObjectPermission o = false) :
    checkObjectPermissionsList true o (pre ++ p :: rest) =
      (.denied p.message, pre.length + 1) := by
  induction pre with
  | nil => simp [checkObjectPermissionsList, hp]
  | cons q pre' ih =>
    have hq := h q (by simp)
    simp only [List.cons_append, checkObjectPermissionsList, hq, Bool.not_true,
      Bool.and_false, Bool.false_eq_true, if_false, List.append_eq,
      ih (fun q' hq' => h q' (by simp [hq'])), List.length_cons]

theorem setAuthLoop_asyncView (cbs : List AuthCallbackModel) :
    setAuthLoop true cbs = true := by
  induction cbs with
  | nil => rfl
  | cons cb rest ih => simp [setAuthLoop, ih]

theorem setAuthLoop_syncView (cbs : List AuthCallbackModel) :
    setAuthLoop false cbs = false ↔ ∃ cb ∈ cbs, cb.isAsyncCallable = true := by
  induction cbs with
  | nil => simp [setAuthLoop]
  | cons cb rest ih =>
    cases hcb : cb.isAsyncCallable <;> simp [setAuthLoop, hcb, ih]

/-- Claim C1: async auth-callback chains are evaluated in declaration
order; the first truthy result stops evaluation, becomes
`request.auth`, and authentication succeeds with no error response; if
every callback returns a falsy result the chain returns (not raises) a
response with status exactly 401 and body with the single field
"detail" = "Unauthorized". -/
theorem async_auth_chain_order_and_unauthorized (onExc : Nat → Response)
    (auth0 : Option Nat) :
    (∀ cbs : List CallbackResult, (∀ r ∈ cbs, r = .falsy) →
      runAuthentication onExc cbs auth0 =
        (auth0, some ⟨401, [("detail", "Unauthorized")]⟩, cbs.length))
    ∧ (∀ (pre rest : List CallbackResult) (v : Nat), (∀ r ∈ pre, r = .falsy) →
      runAuthentication onExc (pre ++ .truthy v :: rest) auth0 =
        (some v, none, pre.length + 1)) := by
  constructor
  · intro cbs h
    induction cbs with
    | nil => rfl
    | cons c rest ih =>
      have hc : c = .falsy := h c (by simp)
      subst hc
      simp only [runAuthentication, ih (fun r hr => h r (by simp [hr])),
        List.length_cons]
  · intro pre rest v h
    induction pre with
    | nil => rfl
    | cons c pre' ih =>
      have hc : c = .falsy := h c (by simp)
      subst hc
      simp only [List.cons_append, runAuthentication, List.append_eq,
        ih (fun r hr => h r (by simp [hr])), List.length_cons]

/-- Witness for C1 at concrete inputs: a chain of one falsy then one
truthy callback stops at the truthy one with its value as the
identity, and an all-falsy chain of length two yields the 401
unauthorized response after evaluating both callbacks. -/
theorem async_auth_chain_order_and_unauthorized_witness :
    runAuthentication (fun _ => ⟨500, []⟩) [.falsy, .truthy 7] none = (some 7, none, 2)
    ∧ runAuthentication (fun _ => ⟨500, []⟩) [.falsy, .falsy] none =
        (none, some ⟨401, [("detail", "Unauthorized")]⟩, 2) :=
  ⟨(async_auth_chain_order_and_unauthorized (fun _ => ⟨500, []⟩) none).2
      [.falsy] [] 7 (by decide),
   (async_auth_chain_order_and_unauthorized (fun _ => ⟨500, []⟩) none).1
      [.falsy, .falsy] (by decide)⟩

/-- Claim C2: with a context holding a request and a non-empty
permission list, when rule i denies and rules 0..i-1 allow,
`check_permissions` raises PermissionDenied carrying rule i's message
attribute, and no rule after i is instantiated or evaluated (i+1 rules
instantiated in total); when every rule allows, `check_permissions`
returns without raising after instantiating them all. -/
theorem check_permissions_short_circuits_on_first_denial :
    (∀ (pre rest : List Permission) (p : Permission),
      (∀ q ∈ pre, q.hasPermission = true) → p.hasPermission = false →
      check_permissions (some ⟨true, pre ++ p :: rest⟩) =
        (.denied p.message, pre.length + 1))
    ∧ (∀ perms : List Permission, (∀ q ∈ perms, q.hasPermission = true) →
      check_permissions (some ⟨true, perms⟩) = (.ok, perms.length)) :=
  ⟨fun pre rest p h hp => checkPermissionsList_denies pre rest p h hp,
   fun perms h => checkPermissionsList_allows perms h⟩

/-- Witness for C2 at concrete inputs: with one allowing rule followed
by a denying rule carrying message "m" and a further rule behind it,
the check denies with "m" after instantiating exactly two rules; with
two allowing rules it passes after instantiating both. -/
theorem check_permissions_short_circuits_on_first_denial_witness :
    check_permissions (some ⟨true,
        [⟨true, fun _ => true, none⟩, ⟨false, fun _ => true, some "m"⟩,
         ⟨true, fun _ => true, none⟩]⟩) = (.denied (some "m"), 2)
    ∧ check_permissions (some ⟨true,
        [⟨true, fun _ => true, none⟩, ⟨true, fun _ => true, some "x"⟩]⟩) = (.ok, 2) :=
  ⟨check_permissions_short_circuits_on_first_denial.1
      [⟨true, fun _ => true, none⟩] [⟨true, fun _ => true, none⟩]
      ⟨false, fun _ => true, some "m"⟩ (by simp) rfl,
   check_permissions_short_circuits_on_first_denial.2
      [⟨true, fun _ => true, none⟩, ⟨true, fun _ => true, some "x"⟩] (by simp)⟩

/-- Claim C10: constructing an Operation whose view function is
synchronous with an auth configuration containing at least one
asynchronous callback raises in `_set_auth`; with an asynchronous view
function, with all-synchronous callbacks, or with no auth configured,
no exception is raised. -/
theorem set_auth_rejects_async_callback_on_sync_view :
    (∀ (viewAsync : Bool) (cbs : List AuthCallbackModel),
      setAuth viewAsync (some cbs) = false ↔
        (viewAsync = false ∧ ∃ cb ∈ cbs, cb.isAsyncCallable = true))
    ∧ ∀ viewAsync : Bool, setAuth viewAsync none = true := by
  constructor
  · intro v cbs
    cases v
    · simpa [setAuth] using setAuthLoop_syncView cbs
    · simp [setAuth, setAuthLoop_asyncView cbs]
  · intro v
    rfl

/-- A permission rule that allows every request and every object. -/
def permAllow : Permission := ⟨true, fun _ => true, none⟩

/-- A permission rule that allows requests but denies every object,
with message "no". -/
def permDenyObj : Permission := ⟨true, fun _ => false, some "no"⟩

/-- Claim C3: the execution context built by `get_execution_context`
resolves the effective permission list as the route function's own
permissions when that list is set and non-empty, as the owning
controller's default `permission_classes` when it is unset or empty,
and as the empty list when the view function has no route function. -/
theorem execution_context_resolves_permissions (reqP : Bool) :
    (∀ (rf : RouteFunctionModel) (p : Permission) (ps : List Permission),
      rf.routePermissions = some (p :: ps) →
      (get_execution_context reqP (some rf)).permissionClasses = p :: ps)
    ∧ (∀ rf : RouteFunctionModel,
      rf.routePermissions = none ∨ rf.routePermissions = some [] →
      (get_execution_context reqP (some rf)).permissionClasses =
        rf.controllerPermissionClasses)
    ∧ (get_execution_context reqP none).permissionClasses = [] := by
  refine ⟨?_, ?_, rfl⟩
  · intro rf p ps h
    simp [get_execution_context, h]
  · intro rf h
    rcases h with h | h <;> simp [get_execution_context, h]

/-- Witness for C3 at concrete inputs: a non-empty per-route list wins
over the controller's default, an unset per-route list falls back to
the controller's default, and a view function without a route function
yields no permissions. -/
theorem execution_context_resolves_permissions_witness :
    (get_execution_context true (some ⟨some [permAllow], [permDenyObj]⟩)).permissionClasses
      = [permAllow]
    ∧ (get_execution_context true (some ⟨none, [permDenyObj]⟩)).permissionClasses
      = [permDenyObj]
    ∧ (get_execution_context true none).permissionClasses = [] :=
  ⟨(execution_context_resolves_permissions true).1
      ⟨some [permAllow], [permDenyObj]⟩ permAllow [] rfl,
   (execution_context_resolves_permissions true).2.1
      ⟨none, [permDenyObj]⟩ (Or.inl rfl),
   (execution_context_resolves_permissions true).2.2⟩

/-- Claim C4: on a successful lookup both `get_object_or_exception`
and `get_object_or_none` run `check_object_permissions` on the found
object before returning it, so an existing object behind a denying
rule yields PermissionDenied and is never returned; a failed lookup
raises the configured exception in `get_object_or_exception` and
returns the empty marker in `get_object_or_none`; with satisfied rules
the object of the direct query is returned unchanged. -/
theorem object_lookup_checks_object_permissions :
    (∀ (o : Nat) (perms : List Permission) (e : APIError),
      (∀ q ∈ perms, q.hasObjectPermission o = true) →
      ControllerBase.get_object_or_exception (some ⟨true, perms⟩) (some o) e = .obj o)
    ∧ (∀ (o : Nat) (pre rest : List Permission) (p : Permission) (e : APIError),
      (∀ q ∈ pre, q.hasObjectPermission o = true) → p.hasObjectPermission o = false →
      ControllerBase.get_object_or_exception (some ⟨true, pre ++ p :: rest⟩) (some o) e =
        .err (.permissionDenied p.message))
    ∧ (∀ (ctx : Option RouteContext) (e : APIError),
      ControllerBase.get_object_or_exception ctx none e = .err e)
    ∧ (∀ (o : Nat) (perms : List Permission),
      (∀ q ∈ perms, q.hasObjectPermission o = true) →
      ControllerBase.get_object_or_none (some ⟨true, perms⟩) (some o) = .obj o)
    ∧ (∀ (o : Nat) (pre rest : List Permission) (p : Permission),
      (∀ q ∈ pre, q.hasObjectPermission o = true) → p.hasObjectPermission o = false →
      ControllerBase.get_object_or_none (some ⟨true, pre ++ p :: rest⟩) (some o) =
        .err (.permissionDenied p.message))
    ∧ (∀ ctx : Option RouteContext,
      ControllerBase.get_object_or_none ctx none = .noneFound) := by
  refine ⟨?_, ?_, fun ctx e => rfl, ?_, ?_, fun ctx => rfl⟩
  · intro o perms e h
    simp [ControllerBase.get_object_or_exception, shortcutGetObjectOrException,
      check_object_permissions, checkObjectPermissionsList_allows o perms h]
  · intro o pre rest p e h hp
    simp [ControllerBase.get_object_or_exception, shortcutGetObjectOrException,
      check_object_permissions, checkObjectPermissionsList_denies o pre rest p h hp]
  · intro o perms h
    simp [ControllerBase.get_object_or_none, shortcutGetObjectOrNone,
      check_object_permissions, checkObjectPermissionsList_allows o perms h]
  · intro o pre rest p h hp
    simp [ControllerBase.get_object_or_none, shortcutGetObjectOrNone,
      check_object_permissions, checkObjectPermissionsList_denies o pre rest p h hp]

/-- Witness for C4 at concrete inputs: object 5 behind an allowing
rule is returned by both helpers; behind an object-denying rule both
helpers fail with PermissionDenied "no" and never return it; a failed
lookup raises the configured exception or returns the empty marker. -/
theorem object_lookup_checks_object_permissions_witness :
    ControllerBase.get_object_or_exception (some ⟨true, [permAllow]⟩) (some 5)
      (.notFound none) = .obj 5
    ∧ ControllerBase.get_object_or_exception (some ⟨true, [permDenyObj]⟩) (some 5)
      (.notFound none) = .err (.permissionDenied (some "no"))
    ∧ ControllerBase.get_object_or_exception (some ⟨true, [permAllow]⟩) none
      (.custom 3) = .err (.custom 3)
    ∧ ControllerBase.get_object_or_none (some ⟨true, [permAllow]⟩) (some 5) = .obj 5
    ∧ ControllerBase.get_object_or_none (some ⟨true, [permDenyObj]⟩) (some 5) =
      .err (.permissionDenied (some "no"))
    ∧ ControllerBase.get_object_or_none (some ⟨true, [permAllow]⟩) none = .noneFound :=
  ⟨object_lookup_checks_object_permissions.1 5 [permAllow] (.notFound none)
      (by intro q hq; rw [List.mem_singleton] at hq; subst hq; rfl),
   object_lookup_checks_object_permissions.2.1 5 [] [] permDenyObj (.notFound none)
      (by intro q hq; cases hq) rfl,
   object_lookup_checks_object_permissions.2.2.1 (some ⟨true, [permAllow]⟩) (.custom 3),
   object_lookup_checks_object_permissions.2.2.2.1 5 [permAllow]
      (by intro q hq; rw [List.mem_singleton] at hq; subst hq; rfl),
   object_lookup_checks_object_permissions.2.2.2.2.1 5 [] [] permDenyObj
      (by intro q hq; cases hq) rfl,
   object_lookup_checks_object_permissions.2.2.2.2.2 (some ⟨true, [permAllow]⟩)⟩

/-- An environment whose auth/CSRF checks fail with a 401 response;
every later step would succeed. -/
def checksFailEnv : RunEnv Nat :=
  ⟨some ⟨401, [("detail", "Unauthorized")]⟩, .ok ⟨200, []⟩, .ok 0, .ok [],
   .ok 1, .ok ⟨200, []⟩, fun _ => ⟨500, []⟩⟩

/-- An environment whose checks pass and whose every step succeeds. -/
def allOkEnv : RunEnv Nat :=
  ⟨none, .ok ⟨200, []⟩, .ok 0, .ok [("q", "1")], .ok 1,
   .ok ⟨200, [("detail", "done")]⟩, fun _ => ⟨500, []⟩⟩

/-- An environment whose checks pass but whose handler raises. -/
def handlerFailEnv : RunEnv Nat :=
  ⟨none, .ok ⟨200, []⟩, .ok 0, .ok [], .exc 9, .ok ⟨200, []⟩, fun _ => ⟨500, []⟩⟩

/-- Counterexample to C5 as stated: in an execution of `Operation.run`
where the auth/CSRF checks fail (a lifecycle failure the claim
explicitly includes), `run` returns the check's response before
`_prep_run` is ever entered, so the "context finished" signal is
broadcast zero times, not exactly once. -/
theorem run_finished_signal_counterexample :
    (Operation.run checksFailEnv).finishedSignals = []
    ∧ ¬ (Operation.run checksFailEnv).finishedSignals.length = 1 := by
  constructor
  · rfl
  · decide

/-- Claim C5 as amended: in every execution of `Operation.run` in
which the auth/CSRF checks pass and the temporal response is created
(so `_prep_run` is entered), the "context finished" signal is
broadcast exactly once, with payload None, in a `finally`-equivalent
cleanup - regardless of context-construction failure, argument
extraction failure, handler exception, or response-conversion failure.
When a check returns an error response, the signal is not broadcast at
all. -/
theorem run_finished_signal_exactly_once {Ctx : Type} (env : RunEnv Ctx)
    (h1 : env.checks = none) (r : Response)
    (h2 : env.createTemporalResponse = .ok r) :
    (Operation.run env).finishedSignals = [none] := by
  unfold Operation.run
  rw [h1, h2]
  cases env.buildContext with
  | exc e => rfl
  | ok ctx =>
    cases env.getValues with
    | exc e => rfl
    | ok v =>
      cases env.callHandler with
      | exc e => rfl
      | ok hr =>
        cases env.convertResult with
        | exc e => rfl
        | ok resp => rfl

/-- Witness for the amended C5 at concrete inputs: with passing checks
the signal is broadcast exactly once with payload None, both when
every step succeeds and when the handler raises. -/
theorem run_finished_signal_exactly_once_witness :
    (Operation.run allOkEnv).finishedSignals = [none]
    ∧ (Operation.run handlerFailEnv).finishedSignals = [none] :=
  ⟨run_finished_signal_exactly_once allOkEnv rfl ⟨200, []⟩ rfl,
   run_finished_signal_exactly_once handlerFailEnv rfl ⟨200, []⟩ rfl⟩

/-- Claim C6: `Operation.run` (and `AsyncOperation.run`) runs the auth
and CSRF checks before any other lifecycle step: when `_run_checks`
returns an error response, `run` returns exactly that response with no
temporal response created, no ExecutionContext built, no "context
started" broadcast, no signal at all, and no log line; and inside
`_run_checks` the auth chain runs before the CSRF check - an auth
error is returned whatever the CSRF check would have said. -/
theorem run_checks_before_any_lifecycle_step :
    (∀ {Ctx : Type} (env : RunEnv Ctx) (err : Response), env.checks = some err →
      Operation.run env = ⟨err, false, false, [], [], 0, 0⟩)
    ∧ (∀ (onExc : Nat → Response) (cbs : List CallbackResult)
        (csrfCheck : Option Response) (auth0 : Option Nat) (e : Response),
      (runAuthentication onExc cbs auth0).2.1 = some e → cbs ≠ [] →
      (runChecks onExc cbs csrfCheck auth0).2 = some e) := by
  constructor
  · intro Ctx env err h
    unfold Operation.run
    rw [h]
  · intro onExc cbs csrfCheck auth0 e hauth hne
    unfold runChecks
    rw [if_neg (by simpa using hne)]
    simp only [hauth]

/-- Witness for C6 at concrete inputs: with failing checks `run`
returns the 401 response having created nothing, started nothing,
signalled nothing and logged nothing; and an all-falsy auth chain
makes `_run_checks` return the 401 auth error even though a CSRF
failure response is also pending. -/
theorem run_checks_before_any_lifecycle_step_witness :
    Operation.run checksFailEnv =
      ⟨⟨401, [("detail", "Unauthorized")]⟩, false, false, [], [], 0, 0⟩
    ∧ (runChecks (fun _ => ⟨500, []⟩) [.falsy] (some ⟨403, []⟩) none).2 =
      some ⟨401, [("detail", "Unauthorized")]⟩ :=
  ⟨run_checks_before_any_lifecycle_step.1 checksFailEnv
      ⟨401, [("detail", "Unauthorized")]⟩ rfl,
   run_checks_before_any_lifecycle_step.2 (fun _ => ⟨500, []⟩) [.falsy]
      (some ⟨403, []⟩) none ⟨401, [("detail", "Unauthorized")]⟩ rfl (by decide)⟩

/-- Route parameters carrying an explicitly set operation id. -/
def explicitIdParams : RouteParameter :=
  ⟨"/x", ["GET"], none, none, some "explicit", none, none, none, none,
   false, false, false, false, none, true⟩

/-- Counterexample to C7 as stated: `add_operation_from_route_function`
assigns the auto-generated operation id unconditionally, so an
explicitly set operation id ("explicit" here) is overwritten, not
preserved. -/
theorem operation_id_counterexample :
    (add_operation_from_route_function "abcd1234" "handler" explicitIdParams).operation_id
      = some "abcd1234_controller_handler"
    ∧ ¬ (add_operation_from_route_function "abcd1234" "handler"
        explicitIdParams).operation_id = some "explicit" := by
  constructor
  · rfl
  · decide

/-- Claim C7 as amended: for every route function registered through
`add_operation_from_route_function`, the operation id
`<8-character random token>_controller_<handler name>` is assigned
unconditionally, overwriting any explicitly set operation id; all
other route parameters are unchanged. -/
theorem operation_id_always_auto_generated (token handlerName : String)
    (rp : RouteParameter) (_h : token.length = 8) :
    (add_operation_from_route_function token handlerName rp).operation_id =
      some (token ++ "_controller_" ++ handlerName)
    ∧ (add_operation_from_route_function token handlerName rp).path = rp.path
    ∧ (add_operation_from_route_function token handlerName rp).methods = rp.methods
    ∧ (add_operation_from_route_function token handlerName rp).url_name = rp.url_name :=
  ⟨rfl, rfl, rfl, rfl⟩

/-- Witness for the amended C7 at concrete inputs: an 8-character
token "abcd1234" and handler "handler" produce the operation id
"abcd1234_controller_handler" even though "explicit" was set, leaving
path, methods and url name untouched. -/
theorem operation_id_always_auto_generated_witness :
    (add_operation_from_route_function "abcd1234" "handler" explicitIdParams).operation_id
      = some "abcd1234_controller_handler"
    ∧ (add_operation_from_route_function "abcd1234" "handler" explicitIdParams).path
      = explicitIdParams.path :=
  ⟨(operation_id_always_auto_generated "abcd1234" "handler" explicitIdParams
      (by decide)).1,
   (operation_id_always_auto_generated "abcd1234" "handler" explicitIdParams
      (by decide)).2.1⟩

/-- Counterexample to C8 as stated: for the class name
"MyControllerThing" (no trailing "controller" suffix, one occurrence
elsewhere), the code's default tag removes the inner occurrence and
yields "mything", while the claim's trailing-suffix-only reading
yields "mycontrollerthing" - the two disagree. -/
theorem default_tag_counterexample :
    defaultTag "MyControllerThing" = "mything"
    ∧ specTrailingStrippedTag "MyControllerThing" = "mycontrollerthing"
    ∧ ¬ defaultTag "MyControllerThing" = specTrailingStrippedTag "MyControllerThing" := by
  refine ⟨?_, ?_, ?_⟩ <;> decide

/-- Claim C8 as amended: with no tags supplied (or an empty - falsy -
list supplied), the default tag list is the single string obtained by
lower-casing the class name and removing every occurrence of
"controller" (not only a trailing suffix); a supplied non-empty tag
list is left unchanged.  Concretely, "ControllerUsersController" gets
the default tag "users". -/
theorem controller_default_tags (clsName t : String) (ts : List String) :
    resolveControllerTags none clsName = some [defaultTag clsName]
    ∧ resolveControllerTags (some []) clsName = some [defaultTag clsName]
    ∧ resolveControllerTags (some (t :: ts)) clsName = some (t :: ts)
    ∧ defaultTag "ControllerUsersController" = "users" :=
  ⟨rfl, rfl, rfl, by decide⟩

theorem noDoubleSlash_collapse (l : List Char) :
    noDoubleSlash (collapseDoubleSlashes l) = true := by
  induction l with
  | nil => rfl
  | cons c rest ih =>
    simp only [collapseDoubleSlashes]
    cases hc : collapseDoubleSlashes rest with
    | nil => rfl
    | cons d ds =>
      rw [hc] at ih
      rcases Bool.eq_false_or_eq_true (c == '/' && d == '/') with h | h <;>
        simp [noDoubleSlash, h, ih]

theorem noDoubleSlash_tail (c : Char) (l : List Char)
    (h : noDoubleSlash (c :: l) = true) : noDoubleSlash l = true := by
  cases l with
  | nil => rfl
  | cons d ds =>
    simp only [noDoubleSlash, Bool.and_eq_true] at h
    exact h.2

theorem noDoubleSlash_dropWhile (p : Char → Bool) (l : List Char)
    (h : noDoubleSlash l = true) : noDoubleSlash (l.dropWhile p) = true := by
  induction l with
  | nil => exact h
  | cons c rest ih =>
    rw [List.dropWhile_cons]
    cases hp : p c with
    | false => simpa [hp] using h
    | true => simpa [hp] using ih (noDoubleSlash_tail c rest h)

theorem head_dropWhile_slash_ne (l : List Char) :
    ∀ c : Char, (l.dropWhile (fun x => x == '/')).head? = some c → c ≠ '/' := by
  induction l with
  | nil =>
    intro c h
    simp [List.dropWhile] at h
  | cons d ds ih =>
    intro c h
    rw [List.dropWhile_cons] at h
    cases hd : (d == '/') with
    | false =>
      rw [hd] at h
      simp at h
      subst h
      simpa using hd
    | true =>
      rw [hd] at h
      simp at h
      exact ih c h

theorem mountRoute_noDoubleSlash (a b : List Char) :
    noDoubleSlash (mountRoute a b) = true :=
  noDoubleSlash_dropWhile _ _ (noDoubleSlash_collapse _)

theorem mountRoute_no_leading_slash (a b : List Char) (c : Char)
    (h : (mountRoute a b).head? = some c) : c ≠ '/' :=
  head_dropWhile_slash_ne _ c h

/-- Claim C9: `urls_paths` emits, for each (path, PathView) group and
each Operation grouped there, one URL entry named with that
Operation's url name whose route is the slash-normalized join of the
mount prefix and the grouped path (braces replaced by angle brackets,
empty components dropped, doubled slashes collapsed, leading slash
stripped); whatever leading or trailing slashes the inputs carry, the
emitted route contains no doubled slash and does not start with a
slash. -/
theorem urls_paths_emits_normalized_named_entries :
    (∀ (pfx : String) (pathOps : List (String × PathViewModel)) (path : String)
        (pv : PathViewModel) (op : OperationModel),
      (path, pv) ∈ pathOps → op ∈ pv.operations →
      (String.mk (mountRoute pfx.data path.data), op.url_name) ∈ urls_paths pfx pathOps)
    ∧ (∀ (pfx : String) (pathOps : List (String × PathViewModel)),
      (urls_paths pfx pathOps).length =
        (pathOps.map (fun po => po.2.operations.length)).sum)
    ∧ (∀ a b : List Char, noDoubleSlash (mountRoute a b) = true)
    ∧ (∀ (a b : List Char) (c : Char), (mountRoute a b).head? = some c → c ≠ '/') := by
  refine ⟨?_, ?_, mountRoute_noDoubleSlash, mountRoute_no_leading_slash⟩
  · intro pfx pathOps path pv op hmem hop
    simp only [urls_paths, List.mem_flatMap]
    exact ⟨(path, pv), hmem, List.mem_map.mpr ⟨op, hop, rfl⟩⟩
  · intro pfx pathOps
    induction pathOps with
    | nil => rfl
    | cons po rest ih =>
      simp only [urls_paths, List.flatMap_cons, List.length_append,
        List.length_map, List.map_cons, List.sum_cons] at ih ⊢
      rw [ih]

/-- Witness for C9 at concrete inputs: mounting the group path (with a
path parameter in braces) under the prefix "/items/" emits exactly the
entry named "item_detail" with route "items/<id>", and even
slash-heavy inputs produce a route with no doubled slash. -/
theorem urls_paths_emits_normalized_named_entries_witness :
    (String.mk (mountRoute "/items/".data "/\x7bid\x7d".data), some "item_detail") ∈
      urls_paths "/items/" [("/\x7bid\x7d", ⟨[⟨some "item_detail"⟩]⟩)]
    ∧ String.mk (mountRoute "/items/".data "/\x7bid\x7d".data) = "items/<id>"
    ∧ noDoubleSlash (mountRoute "/items//".data "//\x7bid\x7d".data) = true :=
  ⟨urls_paths_emits_normalized_named_entries.1 "/items/"
      [("/\x7bid\x7d", ⟨[⟨some "item_detail"⟩]⟩)] "/\x7bid\x7d"
      ⟨[⟨some "item_detail"⟩]⟩ ⟨some "item_detail"⟩ (by decide) (by decide),
   by decide,
   urls_paths_emits_normalized_named_entries.2.2.1 "/items//".data "//\x7bid\x7d".data⟩

end NinjaExtra
